import Mathlib

/-!
Shallow embedding of the example code of the python-profiler-tutorial
repository (a profiling tutorial notebook).  The notebook's own code
consists of:

* a recursive Fibonacci function `fib`;
* a `Timer` class holding a single class-level `_start_time` slot;
* a synthetic workload (`f`, `compute`, `fun1`, `fun2`, `fun3`, `sleep_`,
  `main`);
* a `profile` decorator wrapping a function with a `cProfile.Profile`
  enable/execute/disable sequence.

Each python definition is translated here; time readings
(`time.perf_counter()`) are passed explicitly as rational parameters,
side effects (sleeping, printing) are collected in an explicit effect
list, and the real-valued workload is modelled over `ℝ` with
`Real.sin` standing for `math.sin`.
-/

/-- Embedding of the notebook's
`def fib(n): if n == 0 or n == 1: return 1 else: return fib(n-1) + fib(n-2)`
for nonnegative arguments (the only ones on which the python recursion
terminates). -/
def fib : Nat → Nat
  | 0 => 1
  | 1 => 1
  | n + 2 => fib (n + 1) + fib n

/-- Linear-time iterative computation of `fib`, used only to evaluate
`fib` at concrete inputs inside kernel proofs. -/
def fibIter : Nat → Nat → Nat → Nat
  | 0, a, _ => a
  | n + 1, a, b => fibIter n b (a + b)

/-- Fuel-bounded evaluator of the python `fib` on arbitrary integer
arguments, mirroring the source recursion literally: the guard is
`n == 0 or n == 1`, the recursive calls are on `n-1` and `n-2`, and
`none` means the recursion did not finish within `fuel` nested calls. -/
def fibI : Nat → Int → Option Int
  | 0, _ => none
  | fuel + 1, n =>
    if n = 0 ∨ n = 1 then
      some 1
    else
      (fibI fuel (n - 1)).bind fun a =>
        (fibI fuel (n - 2)).bind fun b =>
          some (a + b)

/-- The class-level state of the notebook's `Timer` class: it consists of
the single slot `_start_time`, initialised to `None`.  A stored
performance-counter reading is modelled as a rational number. -/
structure TimerState where
  _start_time : Option ℚ
deriving DecidableEq

/-- The initial class state: `_start_time = None`. -/
def Timer.init : TimerState := { _start_time := none }

/-- Embedding of `Timer.start_measure`: `cls._start_time = time.perf_counter()`.
The current performance-counter reading is the explicit parameter `now`. -/
def Timer.start_measure (now : ℚ) (_s : TimerState) : TimerState :=
  { _start_time := some now }

/-- Embedding of `Timer.print_time`:
`time_elapsed = time.perf_counter() - cls._start_time` followed by printing
`time_elapsed`.  The reported elapsed value is returned together with the
(unchanged) class state; `none` models the `TypeError` raised when
`_start_time` is still `None`. -/
def Timer.print_time (now : ℚ) (s : TimerState) : Option (ℚ × TimerState) :=
  match s._start_time with
  | none => none
  | some t => some (now - t, s)

/-- A sequential trace of `Timer` method calls, each with the
performance-counter reading observed at that call. -/
inductive TimerOp where
  | start (now : ℚ)
  | print (now : ℚ)
deriving DecidableEq

/-- Runs a sequence of `Timer` calls from a given class state; the run
aborts with `none` as soon as a `print_time` call raises. -/
def runOps : List TimerOp → TimerState → Option TimerState
  | [], s => some s
  | TimerOp.start t :: ops, s => runOps ops (Timer.start_measure t s)
  | TimerOp.print t :: ops, s =>
    match Timer.print_time t s with
    | none => none
    | some (_, s') => runOps ops s'

/-- Observable side effects of the workload code: `time.sleep(seconds)`
and printing a real number formatted with the given number of decimal
places (`'{:.3f}'.format`-style). -/
inductive Eff where
  | sleep (seconds : ℚ)
  | printFloat (x : ℝ) (decimals : Nat)

/-- Embedding of `def f(x): return 10.0 * sin(x)`. -/
noncomputable def f (x : ℝ) : ℝ := 10.0 * Real.sin x

/-- Embedding of `def compute(n): x = 1; for i in range(n): x = f(x); return x`. -/
noncomputable def compute (n : Nat) : ℝ :=
  (List.range n).foldl (fun x _ => f x) 1

/-- Embedding of `def sleep_(): sleep(0.1)` as its effect trace. -/
def sleep_ : List Eff := [Eff.sleep (1 / 10)]

/-- Embedding of `def fun1(): return compute(3*10**5)`: return value
paired with the (empty) effect trace. -/
noncomputable def fun1 : ℝ × List Eff := (compute (3 * 10 ^ 5), [])

/-- Embedding of `def fun2(): return compute(5*10**5)`. -/
noncomputable def fun2 : ℝ × List Eff := (compute (5 * 10 ^ 5), [])

/-- Embedding of `def fun3(): sleep_(); return compute(7*10**5)`: the
sleep effect happens before the computation, and `compute` itself emits
no effects. -/
noncomputable def fun3 : ℝ × List Eff := (compute (7 * 10 ^ 5), sleep_)

/-- Embedding of
`def main(): sum = fun1() + fun2() + fun3(); sleep_(); print('Calcuated sum: {:.3f}\n'.format(sum))`.
The value is python's implicit `None` (here `Unit`) and the effect trace
concatenates, in program order, the effects of `fun1`, `fun2`, `fun3`,
the direct `sleep_()` call, and the final formatted print of the sum. -/
noncomputable def main : Unit × List Eff :=
  ((), fun1.2 ++ fun2.2 ++ fun3.2 ++ sleep_ ++
    [Eff.printFloat (fun1.1 + fun2.1 + fun3.1) 3])

/-- State of a `cProfile.Profile` object, reduced to whether profiling
is currently enabled. -/
structure Profile where
  enabled : Bool
deriving DecidableEq

/-- A fresh `cProfile.Profile()`: profiling not yet enabled. -/
def Profile.new : Profile := { enabled := false }

/-- `pr.enable()`. -/
def Profile.enable (p : Profile) : Profile := { p with enabled := true }

/-- `pr.disable()`. -/
def Profile.disable (p : Profile) : Profile := { p with enabled := false }

/-- Embedding of the notebook's `profile` decorator: the wrapped
function creates a fresh profiler, enables it, executes `func` on the
given argument, disables the profiler, prints the stats, and returns
the function's value.  The decorated function returns the value of
`func` together with the final profiler state. -/
def profile {α β : Type} (func : α → β) : α → β × Profile := fun args =>
  let pr := Profile.new
  let prOn := Profile.enable pr
  let ret_val := func args
  let prOff := Profile.disable prOn
  (ret_val, prOff)

theorem fibIter_spec : ∀ (n k : Nat), fibIter n (fib k) (fib (k + 1)) = fib (k + n)
  | 0, k => by simp [fibIter]
  | n + 1, k => by
    show fibIter n (fib (k + 1)) (fib k + fib (k + 1)) = fib (k + (n + 1))
    have hsum : fib k + fib (k + 1) = fib (k + 2) := by
      show fib k + fib (k + 1) = fib (k + 1) + fib k
      exact Nat.add_comm _ _
    rw [hsum]
    have h := fibIter_spec n (k + 1)
    have e1 : k + 1 + 1 = k + 2 := by omega
    rw [e1] at h
    rw [h]
    congr 1
    omega

theorem fib_eq_nat_fib : ∀ n : Nat, fib n = Nat.fib (n + 1)
  | 0 => rfl
  | 1 => rfl
  | n + 2 => by
    show fib (n + 1) + fib n = Nat.fib (n + 3)
    rw [fib_eq_nat_fib (n + 1), fib_eq_nat_fib n]
    conv_rhs => rw [show n + 3 = (n + 1) + 2 from rfl, Nat.fib_add_two]
    exact Nat.add_comm _ _

theorem fibI_neg : ∀ (fuel : Nat) (n : Int), n < 0 → fibI fuel n = none
  | 0, _, _ => rfl
  | fuel + 1, n, h => by
    have h1 : ¬(n = 0 ∨ n = 1) := by omega
    simp only [fibI, if_neg h1]
    rw [fibI_neg fuel (n - 1) (by omega)]
    rfl

theorem fibI_pos : ∀ (fuel n : Nat), n < fuel → fibI fuel (n : Int) = some (fib n : Int)
  | 0, n, h => absurd h (Nat.not_lt_zero n)
  | fuel + 1, 0, _ => by simp [fibI, fib]
  | fuel + 1, 1, _ => by simp [fibI, fib]
  | fuel + 1, m + 2, h => by
    have h1 : ¬(((m : Int) + 2) = 0 ∨ ((m : Int) + 2) = 1) := by omega
    have e0 : ((m + 2 : Nat) : Int) = (m : Int) + 2 := by omega
    have e1 : (m : Int) + 2 - 1 = ((m + 1 : Nat) : Int) := by omega
    have e2 : (m : Int) + 2 - 2 = ((m : Nat) : Int) := by omega
    rw [e0]
    simp only [fibI, if_neg h1]
    rw [e1, e2, fibI_pos fuel (m + 1) (by omega), fibI_pos fuel m (by omega)]
    show some ((fib (m + 1) : Int) + (fib m : Int)) = some ((fib (m + 2) : Nat) : Int)
    rw [show fib (m + 2) = fib (m + 1) + fib m from rfl]
    push_cast
    ring_nf

theorem runOps_isSome :
    ∀ (ops : List TimerOp) (s : TimerState),
      s._start_time.isSome → (runOps ops s).isSome
  | [], _, _ => by simp [runOps]
  | TimerOp.start t :: ops, s, _ => by
    simp only [runOps]
    exact runOps_isSome ops (Timer.start_measure t s) rfl
  | TimerOp.print t :: ops, s, h => by
    obtain ⟨t0, ht⟩ := Option.isSome_iff_exists.mp h
    simp only [runOps, Timer.print_time, ht]
    exact runOps_isSome ops s h

/-- C1: the recursive Fibonacci function returns the mathematically
correct value (the Fibonacci sequence shifted so that `fib 0 = fib 1 = 1`,
i.e. `Nat.fib (n + 1)`); in particular `fib 30 = 1346269`, the value the
notebook computes as the 30th term. -/
theorem fib_correct_value :
    fib 30 = 1346269 ∧ ∀ n : Nat, fib n = Nat.fib (n + 1) := by
  constructor
  · have h := fibIter_spec 30 0
    norm_num at h
    rw [show fib 0 = 1 from rfl, show fib 1 = 1 from rfl] at h
    rw [← h]
    decide
  · exact fib_eq_nat_fib

/-- C2: `fib` satisfies the Fibonacci recurrence of the source:
`fib 0 = 1`, `fib 1 = 1`, and for every `n ≥ 2`,
`fib n = fib (n-1) + fib (n-2)`. -/
theorem fib_recurrence :
    fib 0 = 1 ∧ fib 1 = 1 ∧
      ∀ n : Nat, 2 ≤ n → fib n = fib (n - 1) + fib (n - 2) := by
  refine ⟨rfl, rfl, fun n h => ?_⟩
  obtain ⟨m, rfl⟩ : ∃ m, n = m + 2 := ⟨n - 2, by omega⟩
  rfl

/-- Witness for C2 at the concrete input `n = 5`. -/
theorem fib_recurrence_witness : 2 ≤ 5 ∧ fib 5 = fib 4 + fib 3 :=
  ⟨by decide, fib_recurrence.2.2 5 (by decide)⟩

/-- C3: `Timer.start_measure` stores the current performance-counter
reading in the single class-level `_start_time` slot (overwriting any
previous value, so the stored value is that of the most recent call),
and a subsequent `Timer.print_time` reports the current reading minus
the stored value. -/
theorem timer_reports_elapsed (t0 t1 : ℚ) (s s' : TimerState) :
    (Timer.start_measure t0 s)._start_time = some t0 ∧
    Timer.start_measure t0 s = Timer.start_measure t0 s' ∧
    Timer.print_time t1 (Timer.start_measure t0 s) =
      some (t1 - t0, Timer.start_measure t0 s) :=
  ⟨rfl, rfl, rfl⟩

/-- C6: `Timer.start_measure` replaces the whole class state by one
holding only the new `_start_time`; `Timer.print_time` never changes the
class state; hence two consecutive `print_time` calls after one
`start_measure` both report an elapsed time measured from the same
recorded start instant `t0`. -/
theorem timer_frame (t0 t1 t2 : ℚ) (s : TimerState) :
    Timer.start_measure t0 s = { _start_time := some t0 } ∧
    (∀ (now : ℚ) (st : TimerState) (e : ℚ) (st' : TimerState),
      Timer.print_time now st = some (e, st') → st' = st) ∧
    Timer.print_time t1 (Timer.start_measure t0 s) =
      some (t1 - t0, Timer.start_measure t0 s) ∧
    Timer.print_time t2 (Timer.start_measure t0 s) =
      some (t2 - t0, Timer.start_measure t0 s) := by
  refine ⟨rfl, ?_, rfl, rfl⟩
  intro now st e st' h
  cases hst : st._start_time with
  | none => simp [Timer.print_time, hst] at h
  | some t =>
    simp only [Timer.print_time, hst, Option.some.injEq, Prod.mk.injEq] at h
    exact h.2.symm

/-- Witness for C6, discharging the frame implication at the concrete
call `print_time 5` on the state holding start value `2`. -/
theorem timer_frame_witness : ({ _start_time := some 2 } : TimerState) = { _start_time := some 2 } :=
  (timer_frame 0 1 2 { _start_time := none }).2.1 5 { _start_time := some 2 } 3
    { _start_time := some 2 } (by norm_num [Timer.print_time])

/-- C7: calling `Timer.print_time` before any `start_measure` fails (the
subtraction meets the initial `None`), and once `start_measure` has been
called, every later sequence of `Timer` calls runs without reaching the
error branch of `print_time`. -/
theorem print_time_requires_start :
    (∀ now : ℚ, Timer.print_time now Timer.init = none) ∧
    (∀ (t0 : ℚ) (ops : List TimerOp) (s : TimerState),
      (runOps (TimerOp.start t0 :: ops) s).isSome) := by
  refine ⟨fun _ => rfl, fun t0 ops s => ?_⟩
  show (runOps ops (Timer.start_measure t0 s)).isSome
  exact runOps_isSome ops (Timer.start_measure t0 s) rfl

/-- C8: `fib` terminates on every nonnegative integer (with enough fuel
the fuel-bounded evaluator returns `fib n`), and on every negative
integer the recursion never reaches a base case (no amount of fuel
suffices). -/
theorem fib_termination :
    (∀ n : Nat, fibI (n + 1) (n : Int) = some ((fib n : Nat) : Int)) ∧
    (∀ n : Int, n < 0 → ∀ fuel : Nat, fibI fuel n = none) :=
  ⟨fun n => fibI_pos (n + 1) n (by omega), fun n h fuel => fibI_neg fuel n h⟩

/-- Witness for C8 at `n = 5` (termination) and `n = -1` (divergence). -/
theorem fib_termination_witness :
    fibI 6 ((5 : Nat) : Int) = some ((fib 5 : Nat) : Int) ∧
    (-1 : Int) < 0 ∧ fibI 3 (-1) = none :=
  ⟨fib_termination.1 5, by decide, fib_termination.2 (-1) (by decide) 3⟩

/-- C4: `compute n` is the `n`-fold iterate of `f x = 10 * sin x`
starting from `1`; `fun1`, `fun2`, `fun3` return `compute (3*10^5)`,
`compute (5*10^5)` and `compute (7*10^5)` respectively, and `fun3`
additionally performs the sleep effect. -/
theorem compute_iterates :
    (∀ n : Nat, compute n = f^[n] 1) ∧
    fun1.1 = compute (3 * 10 ^ 5) ∧
    fun2.1 = compute (5 * 10 ^ 5) ∧
    fun3.1 = compute (7 * 10 ^ 5) ∧
    fun3.2 = [Eff.sleep (1 / 10)] := by
  refine ⟨?_, by rw [fun1], by rw [fun2], by rw [fun3], by rw [fun3, sleep_]⟩
  intro n
  induction n with
  | zero => simp [compute]
  | succ m ih =>
    have hstep : compute (m + 1) = f (compute m) := by
      show (List.range (m + 1)).foldl (fun x _ => f x) 1 =
        f ((List.range m).foldl (fun x _ => f x) 1)
      rw [List.range_succ, List.foldl_append]
      rfl
    rw [hstep, ih]
    exact (Function.iterate_succ_apply' f m 1).symm

/-- C5: `main` returns python's `None` and its whole observable
behaviour is the effect trace: the sleep performed inside `fun3`, the
direct `sleep_()` call, and the print of `fun1() + fun2() + fun3()`
formatted to three decimal places; no other state is touched. -/
theorem main_behavior :
    main = ((), [Eff.sleep (1 / 10), Eff.sleep (1 / 10),
      Eff.printFloat
        (compute (3 * 10 ^ 5) + compute (5 * 10 ^ 5) + compute (7 * 10 ^ 5))
        3]) := by
  simp [main, fun1, fun2, fun3, sleep_]

/-- C9: the `profile` decorator is transparent to the wrapped function's
result: `profile func args` returns exactly `func args`, and the fresh
profiler it creates is enabled before the call and disabled after it. -/
theorem profile_transparent :
    ∀ (α β : Type) (func : α → β) (args : α),
      (profile func args).1 = func args ∧
      (profile func args).2 = Profile.disable (Profile.enable Profile.new) ∧
      (Profile.enable Profile.new).enabled = true ∧
      (Profile.disable (Profile.enable Profile.new)).enabled = false :=
  fun _ _ _ _ => ⟨rfl, rfl, rfl, rfl⟩
